import Mathlib

/-!
Verification of the Cage Wayland-kiosk compositor core (part_000 and
layer_shell_v1.c) against its natural-language specification.

The C event handlers are shallowly embedded as pure Lean functions.
External wlroots/wayland services (the seat's pointer-focus state machine,
the output layout, intrusive wl_list links) are modelled at their
documented interface boundary; the handlers themselves are transcribed
statement by statement from the source.
-/

/- ### Pointer / seat model (src/unnamed/part_000, handle_cursor_motion) -/

/-- Events the compositor emits toward the protocol layer on the pointer path. -/
inductive SeatEvent
  | leave (surface : Nat)
  | enter (surface : Nat) (sx sy : Int)
  | motion (time : Nat) (sx sy : Int)
deriving DecidableEq, Repr

/-- The wlroots seat's pointer state observed by the handler
(wlr_seat->pointer_state.focused_surface). -/
structure PointerState where
  focusedSurface : Option Nat
deriving DecidableEq, Repr

/-- wlr_seat_pointer_enter (reached from wlr_seat_pointer_notify_enter via the
default grab): if the surface is already focused, nothing happens; otherwise a
leave is sent to the previously focused surface, an enter to the new one, and
the focused surface is updated. -/
def wlr_seat_pointer_enter (st : PointerState) (surface : Option Nat) (sx sy : Int) :
    PointerState × List SeatEvent :=
  if st.focusedSurface = surface then
    (st, [])
  else
    let leaves : List SeatEvent :=
      match st.focusedSurface with
      | some old => [SeatEvent.leave old]
      | none => []
    let enters : List SeatEvent :=
      match surface with
      | some s => [SeatEvent.enter s sx sy]
      | none => []
    ({ focusedSurface := surface }, leaves ++ enters)

/-- wlr_seat_pointer_clear_focus: focus the null surface. -/
def wlr_seat_pointer_clear_focus (st : PointerState) : PointerState × List SeatEvent :=
  wlr_seat_pointer_enter st none 0 0

/-- wlr_seat_pointer_notify_motion: emit one motion event (focus unchanged). -/
def wlr_seat_pointer_notify_motion (time : Nat) (sx sy : Int) : List SeatEvent :=
  [SeatEvent.motion time sx sy]

/-- The body of handle_cursor_motion after the hit-test, transcribed from
part_000 lines 248-257.  `hit` is the surface (with surface-local coordinates)
returned by desktop_surface_at.  Note the source computes `focus_changed`
from pointer_state.focused_surface AFTER wlr_seat_pointer_notify_enter has
already run. -/
def handle_cursor_motion_core (st : PointerState) (hit : Option (Nat × Int × Int))
    (time : Nat) : PointerState × List SeatEvent :=
  match hit with
  | none => wlr_seat_pointer_clear_focus st
  | some (surface, sx, sy) =>
    let r := wlr_seat_pointer_enter st (some surface) sx sy
    let focus_changed : Bool := decide (¬ r.1.focusedSurface = some surface)
    if focus_changed = false ∧ 0 < time then
      (r.1, r.2 ++ wlr_seat_pointer_notify_motion time sx sy)
    else
      (r.1, r.2)

/- ### Output-layout hit test (desktop_surface_at, part_000 lines 227-234) -/

/-- A wlr_box from the output layout. -/
structure WlrBox where
  x : Int
  y : Int
  width : Int
  height : Int
deriving DecidableEq, Repr

/-- wlr_box_contains_point on the layout coordinates. -/
def wlr_box_contains_point (b : WlrBox) (lx ly : Int) : Bool :=
  decide (b.x ≤ lx) && decide (lx < b.x + b.width) &&
    decide (b.y ≤ ly) && decide (ly < b.y + b.height)

/-- wlr_output_layout_output_at: the first output of the layout whose box
contains the point, if any.  The layout is a list of (output id, box). -/
def wlr_output_layout_output_at (layout : List (Nat × WlrBox)) (lx ly : Int) :
    Option Nat :=
  (layout.find? (fun p => wlr_box_contains_point p.2 lx ly)).map Prod.fst

/-- desktop_surface_at (part_000 lines 227-234).  The source dereferences
wlr_output->data without a null check, so a lookup that returns no output is
a null dereference, modelled as Except.error.  `surface_at` stands for
cage_output_surface_at of the output that was hit. -/
def desktop_surface_at (layout : List (Nat × WlrBox))
    (surface_at : Nat → Int → Int → Option (Nat × Int × Int)) (lx ly : Int) :
    Except Unit (Option (Nat × Int × Int)) :=
  match wlr_output_layout_output_at layout lx ly with
  | none => Except.error ()
  | some o => Except.ok (surface_at o lx ly)

/-- handle_cursor_motion (part_000 lines 236-258): hit-test at the cursor
position, then run the focus/motion logic. -/
def handle_cursor_motion (layout : List (Nat × WlrBox))
    (surface_at : Nat → Int → Int → Option (Nat × Int × Int)) (cx cy : Int)
    (st : PointerState) (time : Nat) : Except Unit (PointerState × List SeatEvent) :=
  match desktop_surface_at layout surface_at cx cy with
  | Except.error e => Except.error e
  | Except.ok hit => Except.ok (handle_cursor_motion_core st hit time)

/-- Whether an Except computation completed without error. -/
def exceptOk {ε α : Type} : Except ε α → Bool
  | Except.ok _ => true
  | Except.error _ => false

/- ### Claims C1, C2, C10 -/

/-- Claim C1 (code bug evidence): on a tick where the pointer moves from
focused surface 1 to surface 2 with time = 5 > 0, the handler emits the
enter/leave pair AND a motion event in the same tick.  The claim (and the
spec's stated intent, avoiding a motion event racing a focus change) says no
motion event is sent on a focus-change tick; the source computes
focus_changed only after wlr_seat_pointer_notify_enter has already updated
pointer_state.focused_surface, so focus_changed is always false and the
motion event is sent anyway. -/
theorem C1_motion_sent_on_focus_change_tick :
    handle_cursor_motion_core { focusedSurface := some 1 } (some (2, 3, 4)) 5 =
      ({ focusedSurface := some 2 },
        [SeatEvent.leave 1, SeatEvent.enter 2 3 4, SeatEvent.motion 5 3 4]) := by
  decide

/-- Claim C2: after every execution of the pointer-motion handler, the seat's
focused-surface reference equals the surface returned by the hit-test at the
same cursor coordinates, and is null when the hit-test returns no surface. -/
theorem C2_focus_equals_hit_test (layout : List (Nat × WlrBox))
    (surface_at : Nat → Int → Int → Option (Nat × Int × Int)) (cx cy : Int)
    (st : PointerState) (time : Nat) :
    Except.map (fun r => r.1.focusedSurface)
        (handle_cursor_motion layout surface_at cx cy st time) =
      Except.map (fun hit => Option.map Prod.fst hit)
        (desktop_surface_at layout surface_at cx cy) := by
  have core : ∀ hit, (handle_cursor_motion_core st hit time).1.focusedSurface =
      Option.map Prod.fst hit := by
    intro hit
    match hit with
    | none =>
      simp only [handle_cursor_motion_core, wlr_seat_pointer_clear_focus,
        wlr_seat_pointer_enter, Option.map_none]
      split
      case isTrue h => exact h
      case isFalse h => rfl
    | some (surface, sx, sy) =>
      simp only [handle_cursor_motion_core, wlr_seat_pointer_enter, Option.map_some]
      split
      case isTrue h =>
        split
        case isTrue _ => exact h
        case isFalse _ => exact h
      case isFalse h =>
        split
        case isTrue _ => rfl
        case isFalse _ => rfl
  unfold handle_cursor_motion
  cases hd : desktop_surface_at layout surface_at cx cy with
  | error e => rfl
  | ok hit => simp only [Except.map, core hit]

/-- Claim C10: the pointer-motion path dereferences the output-layout lookup
result without a null check; its execution is free of a null dereference
exactly when the cursor position lies inside some output box of the layout. -/
theorem C10_no_null_deref_iff_cursor_on_output (layout : List (Nat × WlrBox))
    (surface_at : Nat → Int → Int → Option (Nat × Int × Int)) (cx cy : Int)
    (st : PointerState) (time : Nat) :
    exceptOk (handle_cursor_motion layout surface_at cx cy st time) = true ↔
      ∃ p ∈ layout, wlr_box_contains_point p.2 cx cy = true := by
  unfold handle_cursor_motion desktop_surface_at wlr_output_layout_output_at
  cases hfind : layout.find? (fun p => wlr_box_contains_point p.2 cx cy) with
  | none =>
    constructor
    · intro h
      exact absurd h Bool.false_ne_true
    · rintro ⟨p, hp, hcont⟩
      rw [List.find?_eq_none] at hfind
      exact absurd hcont (by simpa using hfind p hp)
  | some p =>
    constructor
    · intro _
      have hpa := List.find?_some hfind
      have hmem : p ∈ layout := List.mem_of_find?_eq_some hfind
      exact ⟨p, hmem, hpa⟩
    · intro _
      rfl

/- ### Layer-shell commit model (src/layer_shell_v1.c, handle_surface_commit) -/

/-- The four zwlr layer-shell layers, in stacking order. -/
inductive ZLayer
  | background
  | bottom
  | top
  | overlay
deriving DecidableEq, Repr

/-- The four ordered layer-surface lists of a cg_output (output->layers),
holding ids of cg_layer_surface nodes.  wl_list_insert at the list head is
modelled as cons. -/
structure OutputLayers where
  background : List Nat
  bottom : List Nat
  top : List Nat
  overlay : List Nat
deriving DecidableEq, Repr

/-- Select one of the four lists by layer. -/
def OutputLayers.get (out : OutputLayers) : ZLayer → List Nat
  | ZLayer.background => out.background
  | ZLayer.bottom => out.bottom
  | ZLayer.top => out.top
  | ZLayer.overlay => out.overlay

/-- wl_list_remove(&layer->link): the node leaves whichever list held it. -/
def OutputLayers.eraseId (out : OutputLayers) (i : Nat) : OutputLayers :=
  { background := out.background.filter (fun x => x != i),
    bottom := out.bottom.filter (fun x => x != i),
    top := out.top.filter (fun x => x != i),
    overlay := out.overlay.filter (fun x => x != i) }

/-- wl_list_insert(&output->layers[z], &layer->link): insert at the head of
the list for layer z. -/
def OutputLayers.insertAt (out : OutputLayers) (z : ZLayer) (i : Nat) : OutputLayers :=
  match z with
  | ZLayer.background => { out with background := i :: out.background }
  | ZLayer.bottom => { out with bottom := i :: out.bottom }
  | ZLayer.top => { out with top := i :: out.top }
  | ZLayer.overlay => { out with overlay := i :: out.overlay }

/-- The cg_layer_surface fields read and written by handle_surface_commit. -/
structure CgLayerSurface where
  id : Nat
  geometry : WlrBox
  layer : ZLayer
deriving DecidableEq, Repr

/-- The wlr_layer_surface_v1 fields read by handle_surface_commit: the bound
output (nullable), the committed (current) layer, and the wlr_surface. -/
structure WlrLayerSurfaceV1 where
  output : Option Nat
  currentLayer : ZLayer
  surface : Nat
deriving DecidableEq, Repr

/-- One output_damage_surface call: surface, position, whole_surface flag. -/
structure DamageCall where
  surface : Nat
  x : Int
  y : Int
  wholeSurface : Bool
deriving DecidableEq, Repr

/-- handle_surface_commit (layer_shell_v1.c lines 73-102), transcribed
statement by statement.  Returns the updated cg_layer_surface, the updated
output layer lists, and the list of output_damage_surface calls made.
Note the source copies layer->geometry into old_geometry and then memcmps
old_geometry against the unmodified layer->geometry, so geometry_changed
is always false; the transcription keeps that comparison. -/
def handle_surface_commit (layer : CgLayerSurface) (layer_surface : WlrLayerSurfaceV1)
    (output : OutputLayers) : CgLayerSurface × OutputLayers × List DamageCall :=
  match layer_surface.output with
  | none => (layer, output, [])
  | some _ =>
    let old_geometry := layer.geometry
    let geometry_changed : Bool := decide (¬ old_geometry = layer.geometry)
    let layer_changed : Bool := decide (¬ layer.layer = layer_surface.currentLayer)
    let moved :=
      if layer_changed = true then
        ({ layer with layer := layer_surface.currentLayer },
          (output.eraseId layer.id).insertAt layer_surface.currentLayer layer.id)
      else
        (layer, output)
    let damage :=
      if geometry_changed = true ∨ layer_changed = true then
        [DamageCall.mk layer_surface.surface old_geometry.x old_geometry.y true,
          DamageCall.mk layer_surface.surface moved.1.geometry.x moved.1.geometry.y true]
      else
        [DamageCall.mk layer_surface.surface moved.1.geometry.x moved.1.geometry.y false]
    (moved.1, moved.2, damage)

theorem OutputLayers.get_insertAt_self (out : OutputLayers) (z : ZLayer) (i : Nat) :
    (out.insertAt z i).get z = i :: out.get z := by
  cases z <;> rfl

theorem OutputLayers.get_insertAt_ne (out : OutputLayers) (z z' : ZLayer) (i : Nat)
    (h : ¬ z' = z) : (out.insertAt z i).get z' = out.get z' := by
  cases z <;> cases z' <;> first | rfl | exact absurd rfl h

theorem OutputLayers.not_mem_get_eraseId (out : OutputLayers) (z : ZLayer) (i : Nat) :
    i ∉ (out.eraseId i).get z := by
  cases z <;> simp [OutputLayers.eraseId, OutputLayers.get, List.mem_filter]

/-- Claim C3: for every layer-surface commit while bound to a live output:
the handler never changes the stored geometry; if the requested (committed)
layer differs from the current layer, the node moves to the requested layer's
list and leaves every other list, and both the old and the (identical) new
geometry are damaged whole-surface; if the geometry had changed without a
layer change, both geometries would be damaged (the handler never recomputes
geometry, so this branch cannot fire); if neither changed, exactly one
incremental damage of the unchanged current geometry is made. -/
theorem C3_commit_layer_move_and_damage (layer : CgLayerSurface)
    (layer_surface : WlrLayerSurfaceV1) (output : OutputLayers) (o : Nat)
    (h : layer_surface.output = some o) :
    (handle_surface_commit layer layer_surface output).1.geometry = layer.geometry
    ∧ (¬ layer.layer = layer_surface.currentLayer →
        (handle_surface_commit layer layer_surface output).1.layer = layer_surface.currentLayer
        ∧ layer.id ∈ OutputLayers.get (handle_surface_commit layer layer_surface output).2.1
            layer_surface.currentLayer
        ∧ (∀ z, ¬ z = layer_surface.currentLayer →
            layer.id ∉ OutputLayers.get (handle_surface_commit layer layer_surface output).2.1 z)
        ∧ (handle_surface_commit layer layer_surface output).2.2 =
            [DamageCall.mk layer_surface.surface layer.geometry.x layer.geometry.y true,
              DamageCall.mk layer_surface.surface layer.geometry.x layer.geometry.y true])
    ∧ (¬ (handle_surface_commit layer layer_surface output).1.geometry = layer.geometry
          ∧ layer.layer = layer_surface.currentLayer →
        (handle_surface_commit layer layer_surface output).2.2 =
            [DamageCall.mk layer_surface.surface layer.geometry.x layer.geometry.y true,
              DamageCall.mk layer_surface.surface layer.geometry.x layer.geometry.y true])
    ∧ (layer.layer = layer_surface.currentLayer →
        (handle_surface_commit layer layer_surface output).1 = layer
        ∧ (handle_surface_commit layer layer_surface output).2.1 = output
        ∧ (handle_surface_commit layer layer_surface output).2.2 =
            [DamageCall.mk layer_surface.surface layer.geometry.x layer.geometry.y false]) := by
  by_cases hl : layer.layer = layer_surface.currentLayer
  · refine ⟨?_, ?_, ?_, ?_⟩
    · simp [handle_surface_commit, h, hl]
    · intro hc
      exact absurd hl hc
    · rintro ⟨hgeo, _⟩
      exact absurd (by simp [handle_surface_commit, h, hl]) hgeo
    · intro _
      refine ⟨?_, ?_, ?_⟩ <;> simp [handle_surface_commit, h, hl]
  · refine ⟨?_, ?_, ?_, ?_⟩
    · simp [handle_surface_commit, h, hl]
    · intro _
      refine ⟨?_, ?_, ?_, ?_⟩
      · simp [handle_surface_commit, h, hl]
      · simp [handle_surface_commit, h, hl, OutputLayers.get_insertAt_self]
      · intro z hz
        simp only [handle_surface_commit, h, hl]
        simp only [decide_not, decide_eq_true_eq]
        rw [if_pos (by simp [hl])]
        rw [OutputLayers.get_insertAt_ne _ _ _ _ hz]
        exact OutputLayers.not_mem_get_eraseId output z layer.id
      · simp [handle_surface_commit, h, hl]
    · rintro ⟨hgeo, hcur⟩
      exact absurd hcur hl
    · intro hc
      exact absurd hc hl

/-- Claim C3 witness: a concrete commit that changes the layer from bottom to
top with unchanged geometry moves the node and damages the (identical) old
and new geometry whole-surface. -/
theorem C3_commit_layer_move_and_damage_witness :
    (handle_surface_commit ⟨7, ⟨0, 0, 10, 10⟩, ZLayer.bottom⟩ ⟨some 0, ZLayer.top, 3⟩
        ⟨[], [7], [5], []⟩).2.2 =
      [DamageCall.mk 3 0 0 true, DamageCall.mk 3 0 0 true] :=
  ((C3_commit_layer_move_and_damage ⟨7, ⟨0, 0, 10, 10⟩, ZLayer.bottom⟩ ⟨some 0, ZLayer.top, 3⟩
      ⟨[], [7], [5], []⟩ 0 rfl).2.1 (by decide)).2.2.2

/- ### New-output and new-toplevel handlers (part_000 lines 183-225) -/

/-- The xdg-surface roles relevant to handle_xdg_shell_surface_new. -/
inductive XdgSurfaceRole
  | noRole
  | toplevel
  | popup
deriving DecidableEq, Repr

/-- handle_new_output (part_000 lines 208-225): wl_list_insert(&server->outputs,
&output->link) pushes the new output onto the HEAD of the server's output
list.  The server's output list is modelled as the list of output ids with
the head being server->outputs.next. -/
def handle_new_output (outputs : List Nat) (o : Nat) : List Nat :=
  o :: outputs

/-- The server's output list after the outputs of `creation_order` arrive in
that order, starting from an empty list. -/
def outputs_after_creation (creation_order : List Nat) : List Nat :=
  creation_order.foldl handle_new_output []

/-- handle_xdg_shell_surface_new (part_000 lines 183-206): a non-toplevel role
returns without creating a view; otherwise the view is bound to
wl_container_of(server->outputs.next, output, link), i.e. the head of the
output list.  Returns the output the created view is bound to, if a view is
created. -/
def handle_xdg_shell_surface_new (outputs : List Nat) (role : XdgSurfaceRole) :
    Option Nat :=
  if ¬ role = XdgSurfaceRole.toplevel then
    none
  else
    outputs.head?

theorem outputs_after_creation_foldl (l : List Nat) (acc : List Nat) :
    l.foldl handle_new_output acc = l.reverse ++ acc := by
  induction l generalizing acc with
  | nil => simp
  | cons x xs ih => simp [List.foldl_cons, handle_new_output, ih]

/-- Claim C4 counterexample: with outputs created in the order 1 then 2, a new
toplevel surface's view is bound to output 2 (the most recently created), not
to output 1 (the first in creation order). -/
theorem C4_counterexample_bound_to_newest_output :
    handle_xdg_shell_surface_new (outputs_after_creation [1, 2]) XdgSurfaceRole.toplevel =
        some 2
      ∧ ¬ handle_xdg_shell_surface_new (outputs_after_creation [1, 2])
          XdgSurfaceRole.toplevel = some 1 := by
  decide

/-- Claim C4 (amended): for every new toplevel-role surface event, the created
view is immediately bound to the head of the server's output list, which is
the MOST RECENTLY created output (handle_new_output inserts at the head); and
non-toplevel-role surfaces create no view. -/
theorem C4_amended_bound_to_last_created_output (creation_order : List Nat)
    (_h : ¬ creation_order = []) :
    handle_xdg_shell_surface_new (outputs_after_creation creation_order)
        XdgSurfaceRole.toplevel = creation_order.getLast?
      ∧ (∀ outputs role, ¬ role = XdgSurfaceRole.toplevel →
          handle_xdg_shell_surface_new outputs role = none) := by
  constructor
  · rw [handle_xdg_shell_surface_new, if_neg (by simp)]
    rw [outputs_after_creation, outputs_after_creation_foldl]
    rw [List.append_nil, List.head?_reverse]
  · intro outputs role hr
    rw [handle_xdg_shell_surface_new, if_pos hr]

/-- Claim C4 amended witness at the concrete creation order 1 then 2. -/
theorem C4_amended_bound_witness :
    handle_xdg_shell_surface_new (outputs_after_creation [1, 2]) XdgSurfaceRole.toplevel =
        ([1, 2] : List Nat).getLast?
      ∧ (∀ outputs role, ¬ role = XdgSurfaceRole.toplevel →
          handle_xdg_shell_surface_new outputs role = none) :=
  C4_amended_bound_to_last_created_output [1, 2] (by decide)

/- ### New-input-device handler (part_000 lines 260-287) -/

/-- wlr input-device classes handled by handle_new_input. -/
inductive WlrInputDeviceType
  | keyboard
  | pointer
  | touch
  | switchDevice
  | tabletTool
  | tabletPad
deriving DecidableEq, Repr

/-- Actions the new-input handler performs on the seat. -/
inductive SeatAction
  | addKeyboard
  | addPointer
  | logUnsupported
  | updateCapabilities
deriving DecidableEq, Repr

/-- handle_new_input (part_000 lines 260-287), transcribed: keyboard and
pointer are added and fall through to cage_seat_update_capabilities; the
touch case logs and BREAKs (so capabilities are still recomputed); the
switch case and both tablet cases log and RETURN, skipping
cage_seat_update_capabilities. -/
def handle_new_input : WlrInputDeviceType → List SeatAction
  | WlrInputDeviceType.keyboard => [SeatAction.addKeyboard, SeatAction.updateCapabilities]
  | WlrInputDeviceType.pointer => [SeatAction.addPointer, SeatAction.updateCapabilities]
  | WlrInputDeviceType.touch => [SeatAction.logUnsupported, SeatAction.updateCapabilities]
  | WlrInputDeviceType.switchDevice => [SeatAction.logUnsupported]
  | WlrInputDeviceType.tabletTool => [SeatAction.logUnsupported]
  | WlrInputDeviceType.tabletPad => [SeatAction.logUnsupported]

/-- Claim C5 counterexample: for a switch-class device the handler returns
before cage_seat_update_capabilities, so the seat's capability flags are NOT
recomputed, contradicting "recomputed unconditionally ... for every device
class".  The same holds for the tablet classes. -/
theorem C5_counterexample_switch_skips_capability_update :
    SeatAction.updateCapabilities ∉ handle_new_input WlrInputDeviceType.switchDevice
      ∧ SeatAction.updateCapabilities ∉ handle_new_input WlrInputDeviceType.tabletTool
      ∧ SeatAction.updateCapabilities ∉ handle_new_input WlrInputDeviceType.tabletPad := by
  decide

/-- Claim C5 (amended): keyboard devices are added to the seat, pointer
devices are added to the seat, every unsupported class (touch, switch,
tablet) is logged and ignored without error, and the capability flags are
recomputed exactly for the keyboard, pointer and touch classes — the switch
and tablet handlers return early and skip the recomputation. -/
theorem C5_amended_capability_update_per_class (t : WlrInputDeviceType) :
    (SeatAction.addKeyboard ∈ handle_new_input t ↔ t = WlrInputDeviceType.keyboard)
    ∧ (SeatAction.addPointer ∈ handle_new_input t ↔ t = WlrInputDeviceType.pointer)
    ∧ (SeatAction.logUnsupported ∈ handle_new_input t ↔
        (t = WlrInputDeviceType.touch ∨ t = WlrInputDeviceType.switchDevice
          ∨ t = WlrInputDeviceType.tabletTool ∨ t = WlrInputDeviceType.tabletPad))
    ∧ (SeatAction.updateCapabilities ∈ handle_new_input t ↔
        (t = WlrInputDeviceType.keyboard ∨ t = WlrInputDeviceType.pointer
          ∨ t = WlrInputDeviceType.touch)) := by
  cases t <;> decide

/- ### main (part_000 lines 377-520) -/

/-- The externally visible steps of main, in program order. -/
inductive MainStep
  | displayCreated
  | sigintRegistered
  | sigtermRegistered
  | backendCreated
  | permissionsDropped
  | compositorCreated
  | outputLayoutCreated
  | dataDeviceManagerCreated
  | xdgShellCreated
  | seatCreated
  | socketCreated
  | backendStarted
  | childSpawned
  | eventLoopRan
  | cleanupPrimaryClient
  | removeSigintSource
  | removeSigtermSource
  | removeSigchldSource
  | seatFini
  | displayDestroyed
  | outputLayoutDestroyed
deriving DecidableEq, Repr

/-- Which fallible calls of main succeed on a given run. -/
structure MainConfig where
  parse_ok : Bool
  xdg_runtime_dir_set : Bool
  display_ok : Bool
  backend_ok : Bool
  drop_permissions_ok : Bool
  compositor_ok : Bool
  output_layout_ok : Bool
  data_device_manager_ok : Bool
  xdg_shell_ok : Bool
  seat_ok : Bool
  socket_ok : Bool
  backend_start_ok : Bool
  spawn_ok : Bool
deriving DecidableEq, Repr

/-- The code at the `end:` label of main (part_000 lines 506-519):
cleanup_primary_client (which reaps the child with waitpid), removal of the
SIGINT source, removal of the SIGTERM source, removal of the child-monitor
source when it was registered, cage_seat_fini, wl_display_destroy,
wlr_output_layout_destroy — in that order. -/
def main_epilogue (sigchld_registered : Bool) : List MainStep :=
  [MainStep.cleanupPrimaryClient, MainStep.removeSigintSource, MainStep.removeSigtermSource]
    ++ (if sigchld_registered = true then [MainStep.removeSigchldSource] else [])
    ++ [MainStep.seatFini, MainStep.displayDestroyed, MainStep.outputLayoutDestroyed]

/-- main (part_000 lines 377-520) as the exit status plus the trace of steps
performed.  Failures before wl_display_create return 1 directly with nothing
created; every later failure jumps to the `end:` label, which runs
main_epilogue; on a successful startup the event loop runs until a signal or
the child-monitor callback terminates it, and falls through to `end:` with
status 0. -/
def cage_main (c : MainConfig) : Int × List MainStep :=
  if c.parse_ok = false then (1, [])
  else if c.xdg_runtime_dir_set = false then (1, [])
  else if c.display_ok = false then (1, [])
  else
    let t0 := [MainStep.displayCreated, MainStep.sigintRegistered, MainStep.sigtermRegistered]
    if c.backend_ok = false then (1, t0 ++ main_epilogue false)
    else
      let t1 := t0 ++ [MainStep.backendCreated]
      if c.drop_permissions_ok = false then (1, t1 ++ main_epilogue false)
      else
        let t2 := t1 ++ [MainStep.permissionsDropped]
        if c.compositor_ok = false then (1, t2 ++ main_epilogue false)
        else
          let t3 := t2 ++ [MainStep.compositorCreated]
          if c.output_layout_ok = false then (1, t3 ++ main_epilogue false)
          else
            let t4 := t3 ++ [MainStep.outputLayoutCreated]
            if c.data_device_manager_ok = false then (1, t4 ++ main_epilogue false)
            else
              let t5 := t4 ++ [MainStep.dataDeviceManagerCreated]
              if c.xdg_shell_ok = false then (1, t5 ++ main_epilogue false)
              else
                let t6 := t5 ++ [MainStep.xdgShellCreated]
                if c.seat_ok = false then (1, t6 ++ main_epilogue false)
                else
                  let t7 := t6 ++ [MainStep.seatCreated]
                  if c.socket_ok = false then (1, t7 ++ main_epilogue false)
                  else
                    let t8 := t7 ++ [MainStep.socketCreated]
                    if c.backend_start_ok = false then (1, t8 ++ main_epilogue false)
                    else
                      let t9 := t8 ++ [MainStep.backendStarted]
                      if c.spawn_ok = false then (1, t9 ++ main_epilogue false)
                      else
                        (0, t9 ++ [MainStep.childSpawned, MainStep.eventLoopRan]
                          ++ main_epilogue true)

/-- Claim C6: if XDG_RUNTIME_DIR is unset at startup then, for every command
line that passes argument parsing, main exits with status 1 having performed
no step: in particular no display object and no socket is created. -/
theorem C6_exit_1_before_display_when_xdg_unset (c : MainConfig)
    (hp : c.parse_ok = true) (hx : c.xdg_runtime_dir_set = false) :
    (cage_main c).1 = 1 ∧ (cage_main c).2 = []
      ∧ MainStep.displayCreated ∉ (cage_main c).2
      ∧ MainStep.socketCreated ∉ (cage_main c).2 := by
  unfold cage_main
  rw [hp, hx]
  simp

/-- Claim C6 witness: parsing succeeds, XDG_RUNTIME_DIR is unset, everything
else would succeed. -/
theorem C6_exit_1_witness :
    (cage_main ⟨true, false, true, true, true, true, true, true, true, true, true,
        true, true⟩).1 = 1
      ∧ (cage_main ⟨true, false, true, true, true, true, true, true, true, true, true,
          true, true⟩).2 = []
      ∧ MainStep.displayCreated ∉ (cage_main ⟨true, false, true, true, true, true, true,
          true, true, true, true, true, true⟩).2
      ∧ MainStep.socketCreated ∉ (cage_main ⟨true, false, true, true, true, true, true,
          true, true, true, true, true, true⟩).2 :=
  C6_exit_1_before_display_when_xdg_unset
    ⟨true, false, true, true, true, true, true, true, true, true, true, true, true⟩ rfl rfl

/-- Claim C8: for every run that reaches shutdown — termination of the event
loop by a signal or by child exit after a successful startup, or any startup
failure after the display was created — the trace ends with exactly:
reap the child (cleanup_primary_client), remove the SIGINT source, remove the
SIGTERM source, remove the child-monitor source when one was registered, tear
down the seat, destroy the display, destroy the output layout, in that
order. -/
theorem C8_shutdown_order (c : MainConfig) (hp : c.parse_ok = true)
    (hx : c.xdg_runtime_dir_set = true) (hd : c.display_ok = true) :
    ∃ pre b, (cage_main c).2 = pre ++
      ([MainStep.cleanupPrimaryClient, MainStep.removeSigintSource,
          MainStep.removeSigtermSource]
        ++ (if b = true then [MainStep.removeSigchldSource] else [])
        ++ [MainStep.seatFini, MainStep.displayDestroyed,
            MainStep.outputLayoutDestroyed]) := by
  unfold cage_main
  rw [hp, hx, hd]
  cases hb1 : c.backend_ok with
  | false =>
    exact ⟨[MainStep.displayCreated, MainStep.sigintRegistered, MainStep.sigtermRegistered],
      false, by simp [main_epilogue]⟩
  | true =>
  cases hb2 : c.drop_permissions_ok with
  | false =>
    exact ⟨[MainStep.displayCreated, MainStep.sigintRegistered, MainStep.sigtermRegistered,
      MainStep.backendCreated], false, by simp [main_epilogue]⟩
  | true =>
  cases hb3 : c.compositor_ok with
  | false =>
    exact ⟨[MainStep.displayCreated, MainStep.sigintRegistered, MainStep.sigtermRegistered,
      MainStep.backendCreated, MainStep.permissionsDropped], false, by simp [main_epilogue]⟩
  | true =>
  cases hb4 : c.output_layout_ok with
  | false =>
    exact ⟨[MainStep.displayCreated, MainStep.sigintRegistered, MainStep.sigtermRegistered,
      MainStep.backendCreated, MainStep.permissionsDropped, MainStep.compositorCreated],
      false, by simp [main_epilogue]⟩
  | true =>
  cases hb5 : c.data_device_manager_ok with
  | false =>
    exact ⟨[MainStep.displayCreated, MainStep.sigintRegistered, MainStep.sigtermRegistered,
      MainStep.backendCreated, MainStep.permissionsDropped, MainStep.compositorCreated,
      MainStep.outputLayoutCreated], false, by simp [main_epilogue]⟩
  | true =>
  cases hb6 : c.xdg_shell_ok with
  | false =>
    exact ⟨[MainStep.displayCreated, MainStep.sigintRegistered, MainStep.sigtermRegistered,
      MainStep.backendCreated, MainStep.permissionsDropped, MainStep.compositorCreated,
      MainStep.outputLayoutCreated, MainStep.dataDeviceManagerCreated], false,
      by simp [main_epilogue]⟩
  | true =>
  cases hb7 : c.seat_ok with
  | false =>
    exact ⟨[MainStep.displayCreated, MainStep.sigintRegistered, MainStep.sigtermRegistered,
      MainStep.backendCreated, MainStep.permissionsDropped, MainStep.compositorCreated,
      MainStep.outputLayoutCreated, MainStep.dataDeviceManagerCreated,
      MainStep.xdgShellCreated], false, by simp [main_epilogue]⟩
  | true =>
  cases hb8 : c.socket_ok with
  | false =>
    exact ⟨[MainStep.displayCreated, MainStep.sigintRegistered, MainStep.sigtermRegistered,
      MainStep.backendCreated, MainStep.permissionsDropped, MainStep.compositorCreated,
      MainStep.outputLayoutCreated, MainStep.dataDeviceManagerCreated,
      MainStep.xdgShellCreated, MainStep.seatCreated], false, by simp [main_epilogue]⟩
  | true =>
  cases hb9 : c.backend_start_ok with
  | false =>
    exact ⟨[MainStep.displayCreated, MainStep.sigintRegistered, MainStep.sigtermRegistered,
      MainStep.backendCreated, MainStep.permissionsDropped, MainStep.compositorCreated,
      MainStep.outputLayoutCreated, MainStep.dataDeviceManagerCreated,
      MainStep.xdgShellCreated, MainStep.seatCreated, MainStep.socketCreated], false,
      by simp [main_epilogue]⟩
  | true =>
  cases hb10 : c.spawn_ok with
  | false =>
    exact ⟨[MainStep.displayCreated, MainStep.sigintRegistered, MainStep.sigtermRegistered,
      MainStep.backendCreated, MainStep.permissionsDropped, MainStep.compositorCreated,
      MainStep.outputLayoutCreated, MainStep.dataDeviceManagerCreated,
      MainStep.xdgShellCreated, MainStep.seatCreated, MainStep.socketCreated,
      MainStep.backendStarted], false, by simp [main_epilogue]⟩
  | true =>
    exact ⟨[MainStep.displayCreated, MainStep.sigintRegistered, MainStep.sigtermRegistered,
      MainStep.backendCreated, MainStep.permissionsDropped, MainStep.compositorCreated,
      MainStep.outputLayoutCreated, MainStep.dataDeviceManagerCreated,
      MainStep.xdgShellCreated, MainStep.seatCreated, MainStep.socketCreated,
      MainStep.backendStarted, MainStep.childSpawned, MainStep.eventLoopRan], true,
      by simp [main_epilogue]⟩

/-- Claim C8 witness: the fully successful run, terminated by signal or child
exit, ends with the shutdown sequence (including the child-monitor source
removal). -/
theorem C8_shutdown_order_witness :
    ∃ pre b, (cage_main ⟨true, true, true, true, true, true, true, true, true, true,
        true, true, true⟩).2 = pre ++
      ([MainStep.cleanupPrimaryClient, MainStep.removeSigintSource,
          MainStep.removeSigtermSource]
        ++ (if b = true then [MainStep.removeSigchldSource] else [])
        ++ [MainStep.seatFini, MainStep.displayDestroyed,
            MainStep.outputLayoutDestroyed]) :=
  C8_shutdown_order
    ⟨true, true, true, true, true, true, true, true, true, true, true, true, true⟩
    rfl rfl rfl

/- ### Output destruction and layer-surface back-references
   (layer_shell_v1.c handle_output_destroy, lines 18-29) -/

/-- The observable state of one cg_layer_surface for the output-lifetime
invariant: its wlr output back-reference (nullable), whether its link is in
some output's layer list, and whether it has been force-closed. -/
structure LayerSurfaceObj where
  id : Nat
  output : Option Nat
  inLayerList : Bool
  closed : Bool
deriving DecidableEq, Repr

/-- Server-level state: the output list and the layer surfaces. -/
structure SystemState where
  outputs : List Nat
  layerSurfaces : List LayerSurfaceObj
deriving DecidableEq, Repr

/-- handle_output_destroy (layer_shell_v1.c lines 18-29) acting on one bound
layer surface: remove it from the output's layer list (re-initializing the
link), null the output back-reference, and force-close the surface via
wlr_layer_surface_v1_close. -/
def handle_output_destroy (l : LayerSurfaceObj) : LayerSurfaceObj :=
  { l with output := none, inLayerList := false, closed := true }

/-- Destruction of output o: the wlr_output destroy signal runs
handle_output_destroy on every layer surface still bound to o before the
output leaves the server's output list; then the output is removed. -/
def destroy_output (st : SystemState) (o : Nat) : SystemState :=
  { outputs := st.outputs.filter (fun x => x != o),
    layerSurfaces := st.layerSurfaces.map
      (fun l => if l.output = some o then handle_output_destroy l else l) }

/-- The invariant of claim C7: every non-null output back-reference of a
layer surface names an output present in the server's output list. -/
def layer_refs_valid (st : SystemState) : Bool :=
  st.layerSurfaces.all (fun l =>
    match l.output with
    | none => true
    | some o => decide (o ∈ st.outputs))

/-- Claim C7: when an output is destroyed while layer surfaces are bound to
it, the handler unbinds each such surface (output reference nulled, removed
from the layer list) and force-closes it; consequently, after the
destruction no layer surface references the destroyed output, and the
invariant that every non-null output reference names a live output is
preserved. -/
theorem C7_output_destroy_unbinds_and_closes (st : SystemState) (o : Nat)
    (hinv : layer_refs_valid st = true) :
    (∀ l, (handle_output_destroy l).output = none
      ∧ (handle_output_destroy l).inLayerList = false
      ∧ (handle_output_destroy l).closed = true)
    ∧ (∀ l ∈ (destroy_output st o).layerSurfaces, ¬ l.output = some o)
    ∧ layer_refs_valid (destroy_output st o) = true := by
  refine ⟨fun l => ⟨rfl, rfl, rfl⟩, ?_, ?_⟩
  · intro l hl
    rw [destroy_output] at hl
    simp only [List.mem_map] at hl
    obtain ⟨l0, _, rfl⟩ := hl
    by_cases hb : l0.output = some o
    · simp [hb, handle_output_destroy]
    · simp [hb]
  · rw [layer_refs_valid, List.all_eq_true] at hinv ⊢
    intro l hl
    rw [destroy_output] at hl
    simp only [List.mem_map] at hl
    obtain ⟨l0, hl0, rfl⟩ := hl
    by_cases hb : l0.output = some o
    · simp [hb, handle_output_destroy]
    · have h0 := hinv l0 hl0
      simp only [if_neg hb]
      cases hout : l0.output with
      | none => simp
      | some o' =>
        rw [hout] at h0
        simp only [decide_eq_true_eq] at h0 ⊢
        rw [destroy_output]
        simp only [List.mem_filter]
        refine ⟨h0, ?_⟩
        have : ¬ o' = o := fun he => hb (by rw [hout, he])
        simpa using this

/-- Claim C7 witness: one output (id 5) with one bound layer surface; the
destruction unbinds and closes it and preserves the invariant. -/
theorem C7_output_destroy_witness :
    (∀ l, (handle_output_destroy l).output = none
      ∧ (handle_output_destroy l).inLayerList = false
      ∧ (handle_output_destroy l).closed = true)
    ∧ (∀ l ∈ (destroy_output ⟨[5], [⟨1, some 5, true, false⟩]⟩ 5).layerSurfaces,
        ¬ l.output = some 5)
    ∧ layer_refs_valid (destroy_output ⟨[5], [⟨1, some 5, true, false⟩]⟩ 5) = true :=
  C7_output_destroy_unbinds_and_closes ⟨[5], [⟨1, some 5, true, false⟩]⟩ 5 (by decide)

/- ### Listener-removal safety on destroy (layer_shell_v1.c lines 18-29, 48-71) -/

/-- The state of one intrusive wl_list link / listener registration. -/
inductive LinkState
  | linked
  | unlinked
  | selfLinked
deriving DecidableEq, Repr

/-- wl_list_remove: unlinking a linked node, or a node re-initialized with
wl_list_init (selfLinked), is safe and leaves the node dangling; calling it
again on a dangling (unlinked) node dereferences invalid pointers. -/
def wl_list_remove : LinkState → Except Unit LinkState
  | LinkState.linked => Except.ok LinkState.unlinked
  | LinkState.selfLinked => Except.ok LinkState.unlinked
  | LinkState.unlinked => Except.error ()

/-- The links and listener registrations owned by one cg_layer_surface, plus
whether layer_surface->output is still non-null. -/
structure CgLayerLinks where
  link : LinkState
  map : LinkState
  unmap : LinkState
  surface_commit : LinkState
  destroy : LinkState
  output_destroy : LinkState
  outputBound : Bool
deriving DecidableEq, Repr

/-- The registrations made by handle_layer_shell_v1_surface_new
(layer_shell_v1.c lines 138-162): all five listeners registered, the node
linked into an output layer list, and the output reference set. -/
def fresh_cg_layer_links : CgLayerLinks :=
  { link := LinkState.linked, map := LinkState.linked, unmap := LinkState.linked,
    surface_commit := LinkState.linked, destroy := LinkState.linked,
    output_destroy := LinkState.linked, outputBound := true }

/-- handle_output_destroy (layer_shell_v1.c lines 18-29) on the link state:
wl_list_remove of the output_destroy listener, wl_list_remove of the
layer-list link followed by wl_list_init of that link, and nulling of
layer_surface->output. -/
def handle_output_destroy_links (s : CgLayerLinks) : Except Unit CgLayerLinks :=
  match wl_list_remove s.output_destroy with
  | Except.error e => Except.error e
  | Except.ok od =>
    match wl_list_remove s.link with
    | Except.error e => Except.error e
    | Except.ok _ =>
      Except.ok
        { s with
          output_destroy := od
          link := LinkState.selfLinked
          outputBound := false }

/-- handle_destroy (layer_shell_v1.c lines 48-71) on the link state: removes
the layer-list link and the map, unmap, surface_commit and destroy listener
links, and removes the output_destroy listener link only when
layer_surface->output is still non-null. -/
def handle_destroy_links (s : CgLayerLinks) : Except Unit CgLayerLinks :=
  match wl_list_remove s.link with
  | Except.error e => Except.error e
  | Except.ok lk =>
  match wl_list_remove s.map with
  | Except.error e => Except.error e
  | Except.ok m =>
  match wl_list_remove s.unmap with
  | Except.error e => Except.error e
  | Except.ok um =>
  match wl_list_remove s.surface_commit with
  | Except.error e => Except.error e
  | Except.ok sc =>
  match wl_list_remove s.destroy with
  | Except.error e => Except.error e
  | Except.ok d =>
  if s.outputBound = true then
    match wl_list_remove s.output_destroy with
    | Except.error e => Except.error e
    | Except.ok od =>
      Except.ok
        { link := lk
          map := m
          unmap := um
          surface_commit := sc
          destroy := d
          output_destroy := od
          outputBound := false }
  else
    Except.ok
      { link := lk
        map := m
        unmap := um
        surface_commit := sc
        destroy := d
        output_destroy := s.output_destroy
        outputBound := s.outputBound }

/-- All removable registrations have been removed exactly once (are dangling,
not doubly removed — a double removal would have produced Except.error). -/
def cg_links_all_removed (s : CgLayerLinks) : Bool :=
  decide (s.link = LinkState.unlinked) && decide (s.map = LinkState.unlinked)
    && decide (s.unmap = LinkState.unlinked)
    && decide (s.surface_commit = LinkState.unlinked)
    && decide (s.destroy = LinkState.unlinked)
    && decide (s.output_destroy = LinkState.unlinked)

/-- Claim C9: starting from the registrations made at creation, the destroy
handler removes exactly the registrations still present and never removes
one twice: destroying directly succeeds with every registration removed
once; and when the bound output was already destroyed first, the destroy
handler still succeeds — it does not remove the output-destroy listener a
second time (the output reference is null, so the guarded removal is
skipped) and the re-initialized layer-list link is removed safely. -/
theorem C9_destroy_never_double_removes :
    (match handle_destroy_links fresh_cg_layer_links with
      | Except.ok s => cg_links_all_removed s
      | Except.error _ => false) = true
    ∧ (match (handle_output_destroy_links fresh_cg_layer_links).bind handle_destroy_links with
      | Except.ok s => cg_links_all_removed s
      | Except.error _ => false) = true := by
  decide
